import Mathlib

/-!
Verification development for the nameplate label export engine
(`src/netlify/functions/submit-order.mts` and the sibling handler revisions
`src/unnamed/part_000`, `src/unnamed/part_001`).

The handler normalizes a list of label designs into
  * a tabular spreadsheet (header plus one row per requested label),
  * a paginated visual document (one card per design, page-break cursor logic),
  * a markup preview (one card per design),
and then uploads the artifacts and fires a notification webhook.

The definitions below are a shallow embedding of that code.  JavaScript
numbers are modelled as `ℚ`, JS `x || default` on possibly-missing values is
modelled explicitly (`orQ`, `orS`, `qtyOr1`: both `undefined` and the falsy
values `0` / `""` select the default), and fields the request body may omit
are `Option`-typed, exactly as the untyped handler reads them.
-/

namespace Nameplate

/-- One text line of a design (`TextLine` in the source: text, fontSize and
the x/y position as percentages of the label box). -/
structure TextLine where
  text : String
  fontSize : ℚ
  x : ℚ
  y : ℚ
deriving DecidableEq

/-- One label design as the handler in `submit-order.mts` reads it from the
untyped request body: every field the code guards with `||` or optional
chaining is `Option`-typed here. -/
structure Label where
  width : Option ℚ
  height : Option ℚ
  font : Option String
  labelColor : Option String
  textColor : Option String
  corners : Option String
  stickyBack : Bool
  quantity : Option Int
  textLines : Option (List TextLine)
deriving DecidableEq

/-- JS `v || d` for an optional number: `undefined` and `0` are falsy. -/
def orQ (v : Option ℚ) (d : ℚ) : ℚ :=
  match v with
  | none => d
  | some x => if x = 0 then d else x

/-- JS `v || d` for an optional string: `undefined` and `""` are falsy. -/
def orS (v : Option String) (d : String) : String :=
  match v with
  | none => d
  | some s => if s = "" then d else s

/-- JS `label.quantity || 1` (`undefined` and `0` are falsy, every other
number - including a negative one - is kept). -/
def qtyOr1 (q : Option Int) : Int :=
  match q with
  | none => 1
  | some n => if n = 0 then 1 else n

/-- Character-wise lowercasing (`hex.toLowerCase()` of the source).  The
palette keys are all ASCII, so only the ASCII letter range can influence the
lookup below and this per-character map is observationally equivalent. -/
def toLowerStr (s : String) : String :=
  ⟨s.data.map Char.toLower⟩

/-- `getColorName` from the source: a fixed palette looked up on the
lower-cased hex value, falling back to the input itself. -/
def getColorName (hex : String) : String :=
  let k := toLowerStr hex
  if k = "#22c55e" then ("Green")
  else if k = "#ef4444" then ("Red")
  else if k = "#eab308" then ("Yellow")
  else if k = "#3b82f6" then ("Blue")
  else if k = "#1a1a1a" then ("Black")
  else if k = "#ffffff" then ("White")
  else if k = "#f97316" then ("Orange")
  else if k = "#6b7280" then ("Gray")
  else hex

/-- Value of one hexadecimal digit (the `[a-f\d]` character class of the
`hexToRgb` regex, which is applied case-insensitively). -/
def hexDigitVal (c : Char) : Option Nat :=
  if '0' ≤ c ∧ c ≤ '9' then some (c.toNat - '0'.toNat)
  else if 'a' ≤ c ∧ c ≤ 'f' then some (c.toNat - 'a'.toNat + 10)
  else if 'A' ≤ c ∧ c ≤ 'F' then some (c.toNat - 'A'.toNat + 10)
  else none

/-- Value of a two-digit hexadecimal group of the `hexToRgb` regex. -/
def hexPairVal (c₁ c₂ : Char) : Option Nat :=
  match hexDigitVal c₁, hexDigitVal c₂ with
  | some h, some l => some (16 * h + l)
  | _, _ => none

/-- `hexToRgb` from the source: matches `^#?([a-f\d]{2})([a-f\d]{2})([a-f\d]{2})$`
case-insensitively and falls back to black `(0,0,0)` on any mismatch. -/
def hexToRgb (hex : String) : Nat × Nat × Nat :=
  let cs := match hex.data with
    | '#' :: rest => rest
    | other => other
  match cs with
  | [a, b, c, d, e, f] =>
    match hexPairVal a b, hexPairVal c d, hexPairVal e f with
    | some r, some g, some bl => (r, g, bl)
    | _, _, _ => (0, 0, 0)
  | _ => (0, 0, 0)

/-! ### Tabular export (`Step 4: Building Excel` of `submit-order.mts`) -/

/-- A spreadsheet cell: the source pushes either strings or numbers. -/
inductive Cell where
  | s (v : String)
  | n (v : ℚ)
deriving DecidableEq

/-- `label.textLines?.[i]` - the i-th text line if the list is present and
long enough. -/
def lineAt (lbl : Label) (i : Nat) : Option TextLine :=
  (lbl.textLines.getD [])[i]?

/-- The text cell of one line slot: `line?.text || ""`. -/
def lineCellText (l? : Option TextLine) : Cell :=
  Cell.s (match l? with
    | none => ""
    | some l => l.text)

/-- The size cell of one line slot: `line?.fontSize || ""` - the number when
it is present and nonzero, else the empty-string marker.  Note that this does
not look at the text of the line at all. -/
def lineCellSize (l? : Option TextLine) : Cell :=
  match l? with
  | none => Cell.s ""
  | some l => if l.fontSize = 0 then Cell.s "" else Cell.n l.fontSize

/-- Count of text lines with non-empty text:
`label.textLines ? label.textLines.filter(t => t.text).length : 0`. -/
def countNonEmpty (lbl : Label) : Nat :=
  match lbl.textLines with
  | none => 0
  | some ls => (ls.filter (fun t => !t.text.isEmpty)).length

/-- The column budget (`maxTextLines` in the source): a fold starting at 1
that keeps the larger of the running value and each design's non-empty line
count. -/
def maxTextLines (labels : List Label) : Nat :=
  labels.foldl (fun acc l => let c := countNonEmpty l; if c > acc then c else acc) 1

/-- The header row: `ID #`, then `LINE i TEXT` / `LINE i TEXT SIZE` pairs for
`i = 1 .. budget`, then the fixed trailing columns. -/
def headers (budget : Nat) : List Cell :=
  [Cell.s ("ID #")]
    ++ (List.range budget).flatMap (fun i =>
        [Cell.s ("LINE " ++ toString (i + 1) ++ " TEXT"),
         Cell.s ("LINE " ++ toString (i + 1) ++ " TEXT SIZE")])
    ++ [Cell.s ("BACKGRND COLOR"), Cell.s ("LETTER COLOR"),
        Cell.s ("WIDTH (INCHES)"), Cell.s ("HEIGHT (INCHES)"),
        Cell.s ("CORNERS"), Cell.s ("STICKY BACK"), Cell.s ("COMMENTS")]

/-- One data row of the spreadsheet for one design (the body of the inner
`for (let q = 0; q < qty; q++)` loop in `submit-order.mts`): the reference id,
`budget` text/size cell pairs, then the defaulted color names, dimensions,
corner style, sticky-back flag and the notes. -/
def rowFor (refId notes : String) (budget : Nat) (lbl : Label) : List Cell :=
  [Cell.s refId]
    ++ (List.range budget).flatMap (fun i =>
        [lineCellText (lineAt lbl i), lineCellSize (lineAt lbl i)])
    ++ [Cell.s (getColorName (orS lbl.labelColor ("#22c55e"))),
        Cell.s (getColorName (orS lbl.textColor ("#ffffff"))),
        Cell.n (orQ lbl.width 7),
        Cell.n (orQ lbl.height 2),
        Cell.s (orS lbl.corners ("squared")),
        Cell.s (if lbl.stickyBack then ("Yes") else ("No")),
        Cell.s notes]

/-- All rows one design contributes: the loop
`const qty = label.quantity || 1; for (let q = 0; q < qty; q++) rows.push(row)`
pushes the same row `max 0 qty` times (`Int.toNat` is 0 on negatives, exactly
as `q < qty` never holds for a negative bound). -/
def rowsFor (refId notes : String) (budget : Nat) (lbl : Label) : List (List Cell) :=
  List.replicate (qtyOr1 lbl.quantity).toNat (rowFor refId notes budget lbl)

/-- The whole table: the header row followed by every design's rows, in
design order, all built with the one column budget computed for the order. -/
def buildTable (refId notes : String) (labels : List Label) : List (List Cell) :=
  headers (maxTextLines labels) :: labels.flatMap (rowsFor refId notes (maxTextLines labels))

/-! ### Geometry scaler and paginated renderer (`Step 6: Building PDF`) -/

/-- The aspect-ratio preserving fit of the source (lines 514-526 of the
current revision): `ratio = designWidth / designHeight`; width-constrained
when `ratio > maxWidth / maxHeight`, else height-constrained.  Returns
`(boxWidth, boxHeight)`. -/
def fitBox (dw dh maxW maxH : ℚ) : ℚ × ℚ :=
  let ratio := dw / dh
  if ratio > maxW / maxH then (maxW, maxW / ratio)
  else (maxH * ratio, maxH)

/-- Character-wise uppercasing (`label.labelColor?.toUpperCase()` of the
source); as for `toLowerStr`, only ASCII can influence the comparison with
the ASCII literal `#FFFFFF`. -/
def toUpperStr (s : String) : String :=
  ⟨s.data.map Char.toUpper⟩

/-- `t.length > k ? t.substring(0, k) + "..." : t`. -/
def truncateText (s : String) (k : Nat) : String :=
  if s.length > k then s.take k ++ "..." else s

/-- One absolutely positioned text draw inside a card. -/
structure TextDraw where
  x : ℚ
  y : ℚ
  size : ℚ
  text : String
deriving DecidableEq

/-- Everything the paginated renderer draws for one design, together with the
page-cursor bookkeeping around it.  `dims` is the raw width/height pair
interpolated into the size caption (the source prints `label.width` and
`label.height` there without any default). -/
structure Placement where
  pageBefore : Nat
  page : Nat
  yBefore : ℚ
  broke : Bool
  yPlaced : ℚ
  boxW : ℚ
  boxH : ℚ
  fill : Nat × Nat × Nat
  textFill : Nat × Nat × Nat
  rounded : Bool
  whiteOutline : Bool
  texts : List TextDraw
  primary : String
  dims : Option ℚ × Option ℚ
  sticky : Bool
  fontName : String
  qtyBadge : Int
  advance : ℚ
deriving DecidableEq

/-- One text draw of a card (lines 552-566 of the current revision): the
position comes from the line's x/y percentages of the box, the font size is
rescaled by `boxHeight / 50` and clamped to `[4, 8]` (a missing or zero
`fontSize` falls back to 20), and the text is truncated to 12 characters. -/
def textDrawFor (margin yP : ℚ) (box : ℚ × ℚ) (t : TextLine) : TextDraw :=
  { x := margin + t.x / 100 * box.1
    y := (yP - 5) + t.y / 100 * box.2
    size := max (4 : ℚ) (min 8 ((if t.fontSize = 0 then (20 : ℚ) else t.fontSize) * (box.2 / 50)))
    text := truncateText t.text 12 }

/-- The card-placement loop of the paginated renderer (lines 504-604 of the
current revision of `submit-order.mts`): for each design, first break the
page when the cursor is past `pageHeight - 50`, then draw the card at the
(possibly reset) cursor and advance by `max(boxHeight, 20) + 10`. -/
def placeCards (pageHeight margin : ℚ) : List Label → ℚ → Nat → List Placement
  | [], _, _ => []
  | lbl :: rest, y, pg =>
    let broke : Bool := decide (y > pageHeight - 50)
    let pg' := if broke then pg + 1 else pg
    let yP := if broke then margin else y
    let box := fitBox (orQ lbl.width 7) (orQ lbl.height 2) 40 25
    let nel := (lbl.textLines.getD []).filter (fun t => !t.text.isEmpty)
    let adv := max box.2 20 + 10
    { pageBefore := pg
      page := pg'
      yBefore := y
      broke := broke
      yPlaced := yP
      boxW := box.1
      boxH := box.2
      fill := hexToRgb (orS lbl.labelColor ("#22c55e"))
      textFill := hexToRgb (orS lbl.textColor ("#ffffff"))
      rounded := decide (lbl.corners = some ("rounded"))
      whiteOutline := decide (lbl.labelColor.map toUpperStr = some ("#FFFFFF"))
      texts := nel.map (textDrawFor margin yP box)
      primary := truncateText (match nel.head? with
        | some t => t.text
        | none => "—") 20
      dims := (lbl.width, lbl.height)
      sticky := lbl.stickyBack
      fontName := orS lbl.font ("Calibri")
      qtyBadge := qtyOr1 lbl.quantity
      advance := adv } :: placeCards pageHeight margin rest (yP + adv) pg'

/-- Projection of a placement onto everything except the quantity badge:
the drawn geometry, style, texts and the cursor bookkeeping. -/
def Placement.geom (p : Placement) :
    Nat × Nat × ℚ × Bool × ℚ × ℚ × ℚ × (Nat × Nat × Nat) × (Nat × Nat × Nat) ×
    Bool × Bool × List TextDraw × String × (Option ℚ × Option ℚ) × Bool × String × ℚ :=
  (p.pageBefore, p.page, p.yBefore, p.broke, p.yPlaced, p.boxW, p.boxH, p.fill,
   p.textFill, p.rounded, p.whiteOutline, p.texts, p.primary, p.dims, p.sticky,
   p.fontName, p.advance)

/-- Projection of a placement onto everything except the raw size caption
`dims` (which the source interpolates without a default). -/
def Placement.style (p : Placement) :
    Nat × Nat × ℚ × Bool × ℚ × ℚ × ℚ × (Nat × Nat × Nat) × (Nat × Nat × Nat) ×
    Bool × Bool × List TextDraw × String × Bool × String × Int × ℚ :=
  (p.pageBefore, p.page, p.yBefore, p.broke, p.yPlaced, p.boxW, p.boxH, p.fill,
   p.textFill, p.rounded, p.whiteOutline, p.texts, p.primary, p.sticky,
   p.fontName, p.qtyBadge, p.advance)

/-- A design's quantity replaced by another value (used to state that the
visual render does not depend on quantities). -/
def setQty (lbl : Label) (q : Option Int) : Label :=
  { lbl with quantity := q }

/-- A design with every optional field missing. -/
def emptyLabel : Label :=
  { width := none, height := none, font := none, labelColor := none,
    textColor := none, corners := none, stickyBack := false,
    quantity := none, textLines := none }

/-- A design carrying the documented defaults explicitly. -/
def defaultLabel : Label :=
  { width := some 7, height := some 2, font := some ("Calibri"),
    labelColor := some ("#22c55e"), textColor := some ("#ffffff"),
    corners := some ("squared"), stickyBack := false,
    quantity := some 1, textLines := some [] }

/-! ### The grid revision of the preview (second document of `part_001`) -/

/-- The color object of the grid revision (`LabelColor`): name, background
and text color. -/
structure P1Color where
  name : String
  bg : String
  text : String
deriving DecidableEq

/-- A label of the grid revision (`Label` interface of the second document
of `part_001`): this revision's fields are all required. -/
structure P1Label where
  height : ℚ
  width : ℚ
  font : String
  textLines : List TextLine
  color : P1Color
  corners : String
  quantity : Int
deriving DecidableEq

/-- One rendered grid card. -/
structure P1Card where
  scale : ℚ
  width : ℚ
  height : ℚ
  rounded : Bool
  texts : List (ℚ × ℚ × ℚ × String)
  primaryText : String
  badge : Int
deriving DecidableEq

/-- `Math.min(240 / (label.width * 72), 60 / (label.height * 72))`. -/
def p1Scale (lbl : P1Label) : ℚ :=
  min (240 / (lbl.width * 72)) (60 / (lbl.height * 72))

/-- The card one design contributes to the grid (lines 526-573 of the grid
revision): scaled box, one absolutely positioned element per non-empty text
line (with the `max(8, fontSize * scale)` floor), the first non-empty text
as the name, and the quantity badge. -/
def p1Card (lbl : P1Label) : P1Card :=
  let s := p1Scale lbl
  let nel := lbl.textLines.filter (fun t => !t.text.isEmpty)
  { scale := s
    width := lbl.width * 72 * s
    height := lbl.height * 72 * s
    rounded := decide (lbl.corners = ("rounded"))
    texts := nel.map (fun t => (t.x, t.y, max (8 : ℚ) (t.fontSize * s), t.text))
    primaryText := (match nel.head? with
      | some t => t.text
      | none => "Empty")
    badge := lbl.quantity }

/-- The grid itself: `labels.map(label => ...)` - one card per design. -/
def p1Cards (labels : List P1Label) : List P1Card :=
  labels.map p1Card

/-- A grid card without its quantity badge. -/
def P1Card.geom (c : P1Card) :
    ℚ × ℚ × ℚ × Bool × List (ℚ × ℚ × ℚ × String) × String :=
  (c.scale, c.width, c.height, c.rounded, c.texts, c.primaryText)

/-- A grid label's quantity replaced by another value. -/
def p1SetQty (lbl : P1Label) (q : Int) : P1Label :=
  { lbl with quantity := q }

/-! ### Handler control flow (validation, uploads, webhook) -/

/-- The environment variables the handler reads; the empty string stands for
an unset (falsy) variable. -/
structure Env where
  awsKey : String
  awsSecret : String
  zapierWebhook : String
deriving DecidableEq

/-- The parsed request body as the handler destructures it. -/
structure Body where
  refId : String
  contactName : String
  contactEmail : String
  notes : String
  labels : Option (List Label)
deriving DecidableEq

/-- What a request run produces, as far as the claims are concerned: the
response status, which artifacts were uploaded, whether the artifacts were
rendered at all, and whether the webhook call was attempted. -/
structure RunResult where
  status : Nat
  uploads : List String
  rendered : Bool
  webhookAttempted : Bool
deriving DecidableEq

/-- `!refId || !labels || labels.length === 0`. -/
def invalidRequest (b : Body) : Bool :=
  b.refId.isEmpty ||
    (match b.labels with
     | none => true
     | some ls => ls.isEmpty)

/-- Control flow of `submit-order.mts`: validation, credential check,
rendering, the two uploads, then the webhook call.  The whole body sits in
one `try/catch` that turns any thrown error into a 500 response; the webhook
`fetch` is awaited without a `try/catch` of its own, so a thrown network
error there also reaches the outer catch.  A resolved non-2xx webhook
response is not inspected at all. -/
def runHandlerMts (env : Env) (b : Body) (xlsxOk pdfOk : Bool)
    (webhookThrows : Bool) : RunResult :=
  if invalidRequest b then ⟨400, [], false, false⟩
  else if env.awsKey.isEmpty || env.awsSecret.isEmpty then ⟨500, [], false, false⟩
  else if !xlsxOk then ⟨500, [], true, false⟩
  else if !pdfOk then ⟨500, [("xlsx")], true, false⟩
  else if !env.zapierWebhook.isEmpty then
    if webhookThrows then ⟨500, [("xlsx"), ("pdf")], true, true⟩
    else ⟨200, [("xlsx"), ("pdf")], true, true⟩
  else ⟨200, [("xlsx"), ("pdf")], true, false⟩

/-- Control flow of the `part_000` revision: identical until the webhook
step, but there the `fetch` sits in its own `try/catch` whose handler only
logs (`// Don't fail the request if Zapier fails`), so a webhook failure
never changes the response. -/
def runHandlerPart000 (env : Env) (b : Body) (xlsxOk pdfOk : Bool)
    (webhookThrows : Bool) : RunResult :=
  if invalidRequest b then ⟨400, [], false, false⟩
  else if env.awsKey.isEmpty || env.awsSecret.isEmpty then ⟨500, [], false, false⟩
  else if !xlsxOk then ⟨500, [], true, false⟩
  else if !pdfOk then ⟨500, [("xlsx")], true, false⟩
  else if !env.zapierWebhook.isEmpty then
    let _ := webhookThrows
    ⟨200, [("xlsx"), ("pdf")], true, true⟩
  else ⟨200, [("xlsx"), ("pdf")], true, false⟩

/-! ### Markup escaping and the preview fragments -/

/-- How `escapeHtml` rewrites one character.  The source chains four global
single-character replacements (`&` first, then `<`, `>`, `"`); since none of
the replacement entities contains a pattern replaced later, the chain acts
exactly as this per-character substitution. -/
def escapeHtmlCharL (c : Char) : List Char :=
  if c = '&' then ['&', 'a', 'm', 'p', ';']
  else if c = '<' then ['&', 'l', 't', ';']
  else if c = '>' then ['&', 'g', 't', ';']
  else if c = '\"' then ['&', 'q', 'u', 'o', 't', ';']
  else [c]

/-- `escapeHtml` of `part_000` (and of the first document of `part_001`):
replaces `&`, `<`, `>` and `"` with character entities. -/
def escapeHtml (text : String) : String :=
  ⟨text.data.flatMap escapeHtmlCharL⟩

/-- Number of occurrences of a character in a string. -/
def countChar (c : Char) (s : String) : Nat :=
  s.data.count c

/-- One preview line of a `part_000` label card (line 261 of `part_000`):
the line text is escaped before interpolation.  The inter-tag whitespace of
the template literal is elided. -/
def p0PreviewLine (t : String) : String :=
  "<div class=\"label-preview-text\">" ++ escapeHtml t ++ "</div>"

/-- The contact-information block of `part_000` (lines 277-283): rendered
only when a contact name or email is present, each escaped before
interpolation. -/
def p0ContactBlock (contactName contactEmail : String) : String :=
  if !contactName.isEmpty || !contactEmail.isEmpty then
    "<div class=\"contact-info\"><h3>Contact Information</h3>"
      ++ (if !contactName.isEmpty then
            "<p><strong>Name:</strong> " ++ escapeHtml contactName ++ "</p>"
          else "")
      ++ (if !contactEmail.isEmpty then
            "<p><strong>Email:</strong> " ++ escapeHtml contactEmail ++ "</p>"
          else "")
      ++ "</div>"
  else ""

/-- The notes block of `part_000` (lines 285-290): escaped notes, rendered
only when non-empty. -/
def p0NotesBlock (notes : String) : String :=
  if !notes.isEmpty then
    "<div class=\"notes-section\"><h3>Notes</h3><p>" ++ escapeHtml notes ++ "</p></div>"
  else ""

/-- The header-info fragment of the grid revision (lines 504-511 of the
second document of `part_001`): `refId`, `contactName` and `contactEmail`
are interpolated without any escaping. -/
def p1HeaderInfo (refId contactName contactEmail formattedDate : String) : String :=
  "<div class=\"header-info\"><span><strong>Reference:</strong> " ++ refId
    ++ "</span><span><strong>Date:</strong> " ++ formattedDate ++ "</span>"
    ++ (if !contactName.isEmpty then
          "<span><strong>Contact:</strong> " ++ contactName ++ "</span>"
        else "")
    ++ (if !contactEmail.isEmpty then
          "<span><strong>Email:</strong> " ++ contactEmail ++ "</span>"
        else "")
    ++ "</div>"

/-- Modelled from the claim's words, for comparison with `p1HeaderInfo`: the
same fragment with every user-supplied order field passed through
`escapeHtml` first. -/
def p1HeaderInfoClaimed (refId contactName contactEmail formattedDate : String) : String :=
  "<div class=\"header-info\"><span><strong>Reference:</strong> " ++ escapeHtml refId
    ++ "</span><span><strong>Date:</strong> " ++ formattedDate ++ "</span>"
    ++ (if !contactName.isEmpty then
          "<span><strong>Contact:</strong> " ++ escapeHtml contactName ++ "</span>"
        else "")
    ++ (if !contactEmail.isEmpty then
          "<span><strong>Email:</strong> " ++ escapeHtml contactEmail ++ "</span>"
        else "")
    ++ "</div>"

/-! ### Claim-side reference definitions and concrete fixtures -/

/-- Modelled from the claim's words, for comparison with `lineCellSize`: the
size cell holds the line's fontSize when the line exists and its text is
non-empty, and the empty marker otherwise. -/
def lineCellSizeClaimed (l? : Option TextLine) : Cell :=
  match l? with
  | none => Cell.s ""
  | some l => if l.text = "" then Cell.s "" else Cell.n l.fontSize

/-- The size cell of the VAR-format revision (lines 331-336 of the second
document of `part_001`): `lines[i]?.text ? lines[i].fontSize : ""` - the
fontSize is emitted only when the text is non-empty. -/
def p1varSizeCell (l? : Option TextLine) : Cell :=
  match l? with
  | none => Cell.s ""
  | some l => if l.text = "" then Cell.s "" else Cell.n l.fontSize

/-- What `lineCellSize` actually computes, spelled out: the fontSize is
emitted whenever it is present and nonzero, independently of the text. -/
def lineCellSizeAmended (l? : Option TextLine) : Cell :=
  match l? with
  | none => Cell.s ""
  | some l => if l.fontSize = 0 then Cell.s "" else Cell.n l.fontSize

/-- A design whose quantity is the (negative) number -1. -/
def negQtyLabel : Label :=
  { emptyLabel with quantity := some (-1) }

/-- A design with a single text line whose text is empty but whose fontSize
is 12. -/
def cexLabel6 : Label :=
  { emptyLabel with textLines := some [{ text := "", fontSize := 12, x := 50, y := 50 }] }

/-- A design with the given width and height and nothing else. -/
def cardLbl (w h : ℚ) : Label :=
  { emptyLabel with width := some w, height := some h }

/-- First pagination run: seven cards whose advances are 31, 30, 30, 30, 30,
30, 35, so the seventh card is considered at cursor 245 (within the
threshold) while the cursor after placing it would be 280. -/
def run1 : List Label :=
  cardLbl 40 21 :: List.replicate 5 (cardLbl 2 1) ++ [cardLbl 1 1]

/-- Second pagination run: seven cards whose advances are 31, 31, 31, 31,
31, 31, 30, so the seventh card is considered at cursor 250 (past the
threshold, hence a page break) while the cursor after placing it from there
would also have been 280. -/
def run2 : List Label :=
  List.replicate 6 (cardLbl 40 21) ++ [cardLbl 2 1]

/-- A well-formed environment for the handler runs. -/
def goodEnv : Env :=
  { awsKey := "AKIA", awsSecret := "SECRET", zapierWebhook := "https://hooks.example/z" }

/-- A well-formed request body with one design. -/
def okBody : Body :=
  { refId := "REF-1", contactName := "", contactEmail := "", notes := "",
    labels := some [defaultLabel] }

/-- A request body whose labels list is empty. -/
def emptyLabelsBody : Body :=
  { refId := "REF-1", contactName := "", contactEmail := "", notes := "",
    labels := some [] }

end Nameplate

/-! ## Helper lemmas -/

namespace Nameplate

theorem if_gt_max (a c : Nat) : (if c > a then c else a) = max a c := by
  split_ifs with h
  · exact (Nat.max_eq_right h.le).symm
  · exact (Nat.max_eq_left (Nat.le_of_not_lt h)).symm

theorem foldl_max_init (l : List Nat) (a : Nat) :
    l.foldl max a = max a (l.foldl max 0) := by
  induction l generalizing a with
  | nil => simp
  | cons c t ih =>
    rw [List.foldl_cons, List.foldl_cons, ih (max a c), Nat.zero_max, ih c,
      Nat.max_assoc]

theorem maxTextLines_spec (labels : List Label) :
    maxTextLines labels = max 1 ((labels.map countNonEmpty).foldl max 0) := by
  unfold maxTextLines
  have h1 : (fun acc l => let c := countNonEmpty l; if c > acc then c else acc)
      = fun (acc : Nat) (l : Label) => max acc (countNonEmpty l) := by
    funext acc l
    exact if_gt_max acc (countNonEmpty l)
  rw [h1, ← List.foldl_map countNonEmpty (fun a c => max a c) labels 1,
    foldl_max_init]

theorem pair_flatMap_length {α : Type} (F G : Nat → α) (l : List Nat) :
    (l.flatMap (fun i => [F i, G i])).length = 2 * l.length := by
  induction l with
  | nil => rfl
  | cons x t ih =>
    simp only [List.flatMap_cons, List.length_append, List.length_cons, ih,
      List.length_nil]
    omega

theorem rowFor_length (refId notes : String) (B : Nat) (lbl : Label) :
    (rowFor refId notes B lbl).length = 1 + 2 * B + 7 := by
  have h := pair_flatMap_length (fun i => lineCellText (lineAt lbl i))
    (fun i => lineCellSize (lineAt lbl i)) (List.range B)
  simp only [List.length_range] at h
  simp [rowFor, h]
  omega

theorem headers_length (B : Nat) : (headers B).length = 1 + 2 * B + 7 := by
  have h := pair_flatMap_length
    (fun i => Cell.s ("LINE " ++ toString (i + 1) ++ " TEXT"))
    (fun i => Cell.s ("LINE " ++ toString (i + 1) ++ " TEXT SIZE")) (List.range B)
  simp only [List.length_range] at h
  simp [headers, h]
  omega

theorem rowsFor_length (refId notes : String) (B : Nat) (lbl : Label) :
    (rowsFor refId notes B lbl).length = (qtyOr1 lbl.quantity).toNat := by
  simp [rowsFor]

theorem buildTable_length (refId notes : String) (labels : List Label) :
    (buildTable refId notes labels).length =
      1 + (labels.map (fun l => (qtyOr1 l.quantity).toNat)).sum := by
  simp only [buildTable, List.length_cons, List.length_flatMap]
  have h : labels.map (List.length ∘ rowsFor refId notes (maxTextLines labels))
      = labels.map (fun l => (qtyOr1 l.quantity).toNat) :=
    List.map_congr_left (fun l _ => rowsFor_length _ _ _ l)
  rw [h]
  omega

theorem mem_buildTable_length (refId notes : String) (labels : List Label)
    (row : List Cell) (h : row ∈ buildTable refId notes labels) :
    row.length = 1 + 2 * maxTextLines labels + 7 := by
  rcases List.mem_cons.mp h with h1 | h1
  · rw [h1]
    exact headers_length _
  · obtain ⟨lbl, _, hmem⟩ := List.mem_flatMap.mp h1
    rw [List.eq_of_mem_replicate hmem]
    exact rowFor_length _ _ _ _

theorem escapeHtmlCharL_no_special (c : Char) :
    '<' ∉ escapeHtmlCharL c ∧ '>' ∉ escapeHtmlCharL c ∧ '\"' ∉ escapeHtmlCharL c := by
  unfold escapeHtmlCharL
  split_ifs with h1 h2 h3 h4 <;> refine ⟨?_, ?_, ?_⟩ <;> simp_all <;>
    (intro hc; subst hc; simp_all)

theorem escapeHtml_data (s : String) :
    (escapeHtml s).data = s.data.flatMap escapeHtmlCharL := rfl

theorem escapeHtml_no_special (s : String) :
    '<' ∉ (escapeHtml s).data ∧ '>' ∉ (escapeHtml s).data ∧ '\"' ∉ (escapeHtml s).data := by
  refine ⟨?_, ?_, ?_⟩ <;>
    · rw [escapeHtml_data]
      intro hmem
      obtain ⟨c, _, hc⟩ := List.mem_flatMap.mp hmem
      have h := escapeHtmlCharL_no_special c
      tauto

theorem countChar_append (c : Char) (a b : String) :
    countChar c (a ++ b) = countChar c a + countChar c b := by
  simp [countChar, String.data_append, List.count_append]

theorem countChar_escapeHtml_lt (s : String) : countChar '<' (escapeHtml s) = 0 :=
  List.count_eq_zero.mpr (escapeHtml_no_special s).1

theorem placeCards_length (ph m : ℚ) (ds : List Label) (y : ℚ) (pg : Nat) :
    (placeCards ph m ds y pg).length = ds.length := by
  induction ds generalizing y pg with
  | nil => rfl
  | cons lbl rest ih => simp [placeCards, ih]

end Nameplate

/-! ## Claim theorems -/

namespace Nameplate

/-- Claim C1, counterexample: the claim states that the Row Expander emits
`max(1, quantity)` rows for every design, treating any quantity ≤ 0 as 1.
For a design with `quantity = -1` the source computes `qty = (-1 || 1) = -1`
(a negative number is truthy in JS) and the loop `for (q = 0; q < -1; ...)`
runs zero times, so the design contributes no row at all, while the claim
demands `max(1, -1) = 1` row. -/
theorem C1_counterexample :
    rowsFor ("REF") ("") 1 negQtyLabel = [] ∧ max 1 (-1 : Int) = 1 := by
  refine ⟨rfl, by decide⟩

/-- Claim C1 (amended): a design contributes `(quantity || 1).toNat` data
rows - `quantity` of them when it is a positive number, one when it is
missing or 0, and none when it is negative; all rows of one design are
identical (the row list is a replicate of the single row); and the table's
total row count is 1 (header) plus the sum of these per-design counts. -/
theorem C1_theorem (refId notes : String) (B : Nat) (lbl : Label)
    (labels : List Label) :
    (rowsFor refId notes B lbl).length = (qtyOr1 lbl.quantity).toNat ∧
    rowsFor refId notes B lbl
      = List.replicate (rowsFor refId notes B lbl).length (rowFor refId notes B lbl) ∧
    (buildTable refId notes labels).length
      = 1 + (labels.map (fun l => (qtyOr1 l.quantity).toNat)).sum :=
  ⟨rowsFor_length _ _ _ _, by simp [rowsFor], buildTable_length _ _ _⟩

/-- Claim C2: the column budget equals `max(1, max over designs of the count
of non-empty text lines)`, computed once for the whole design set, and every
row of the table (header included) has exactly `1 + 2 * budget + 7` cells,
i.e. exactly `budget` text/size column pairs between the leading ID column
and the seven fixed trailing columns, regardless of the row's own design. -/
theorem C2_theorem (refId notes : String) (labels : List Label) :
    maxTextLines labels = max 1 ((labels.map countNonEmpty).foldl max 0) ∧
    (buildTable refId notes labels).map List.length
      = List.replicate (buildTable refId notes labels).length
          (1 + 2 * maxTextLines labels + 7) := by
  refine ⟨maxTextLines_spec labels, ?_⟩
  rw [List.eq_replicate_iff]
  refine ⟨by simp, ?_⟩
  intro b hb
  obtain ⟨row, hrow, hlen⟩ := List.mem_map.mp hb
  rw [← hlen]
  exact mem_buildTable_length _ _ _ _ hrow

/-- Claim C6, counterexample: the claim states that a text line whose text
is empty contributes an empty size cell.  For a design whose single text
line has empty text but `fontSize = 12`, the column budget is 1 and the
source pushes `line?.text || ""` and `line?.fontSize || ""` independently,
so the data row carries the number 12 in the size cell where the claim
demands the empty marker (`lineCellSizeClaimed`, the claim's reading,
yields the empty cell on the same input). -/
theorem C6_counterexample :
    maxTextLines [cexLabel6] = 1 ∧
    rowFor ("REF") ("") 1 cexLabel6
      = [Cell.s ("REF"), Cell.s (""), Cell.n 12, Cell.s ("Green"), Cell.s ("White"),
         Cell.n 7, Cell.n 2, Cell.s ("squared"), Cell.s ("No"), Cell.s ("")] ∧
    lineCellSizeClaimed (lineAt cexLabel6 0) = Cell.s ("") ∧
    Cell.n 12 ≠ Cell.s ("") := by
  refine ⟨rfl, by decide, rfl, by decide⟩

/-- Claim C6 (amended): in `submit-order.mts` the text cell and the size
cell of a column slot are computed independently of each other - the text
cell is the line's text (empty when the line is missing), and the size cell
is the line's fontSize whenever the line is present with a nonzero fontSize,
even if its text is empty.  The VAR-format revision (`part_001`, second
document) does implement the behavior the claim describes: its size cell is
the fontSize exactly when the text is non-empty. -/
theorem C6_theorem (l? : Option TextLine) :
    lineCellSize l? = lineCellSizeAmended l? ∧
    lineCellText l? = Cell.s ((l?.map TextLine.text).getD ("")) ∧
    p1varSizeCell l? = lineCellSizeClaimed l? := by
  refine ⟨?_, ?_, rfl⟩ <;> cases l? <;> rfl

/-- Claim C7: the claim says a webhook failure after two successful uploads
is logged and swallowed.  In `submit-order.mts` the webhook `fetch` is
awaited without a `try/catch` of its own, so a thrown network error reaches
the handler's outer catch and the response is a 500 error even though both
artifacts were uploaded (first conjunct) - the failure is propagated, the
success response is lost.  When the `fetch` resolves, the response status is
never inspected and a 200 is returned (second conjunct).  The `part_000`
revision wraps the call in `try/catch` with the comment `Don't fail the
request if Zapier fails` and behaves exactly as the claim states (third
conjunct), which is what marks the unguarded `await fetch` of
`submit-order.mts` as the slip. -/
theorem C7_theorem :
    runHandlerMts goodEnv okBody true true true
        = ⟨500, [("xlsx"), ("pdf")], true, true⟩ ∧
    runHandlerMts goodEnv okBody true true false
        = ⟨200, [("xlsx"), ("pdf")], true, true⟩ ∧
    runHandlerPart000 goodEnv okBody true true true
        = ⟨200, [("xlsx"), ("pdf")], true, true⟩ :=
  ⟨rfl, rfl, rfl⟩

/-- Claim C9: a request whose body lacks a non-empty `refId` or whose labels
sequence is absent or empty yields the 400 client-error response, nothing is
rendered, and no artifact is uploaded. -/
theorem C9_theorem (env : Env) (b : Body) (xlsxOk pdfOk webhookThrows : Bool)
    (h : invalidRequest b = true) :
    runHandlerMts env b xlsxOk pdfOk webhookThrows = ⟨400, [], false, false⟩ := by
  simp [runHandlerMts, h]

/-- Witness for C9 at a concrete invalid body (empty labels list). -/
theorem C9_witness :
    invalidRequest emptyLabelsBody = true ∧
    runHandlerMts goodEnv emptyLabelsBody true true false = ⟨400, [], false, false⟩ :=
  ⟨by decide, C9_theorem goodEnv emptyLabelsBody true true false (by decide)⟩

end Nameplate

namespace Nameplate

theorem run1_trace :
    (placeCards 297 20 run1 64 0).map (fun p => (p.broke, p.yBefore + p.advance))
      = [(false, 95), (false, 125), (false, 155), (false, 185), (false, 215),
         (false, 245), (false, 280)] := by
  norm_num [placeCards, run1, cardLbl, emptyLabel, fitBox, orQ, max_def,
    List.replicate_succ, decide_eq_true_eq, decide_eq_false_iff_not]

theorem run2_trace :
    (placeCards 297 20 run2 64 0).map (fun p => (p.broke, p.yBefore + p.advance))
      = [(false, 95), (false, 126), (false, 157), (false, 188), (false, 219),
         (false, 250), (true, 280)] := by
  norm_num [placeCards, run2, cardLbl, emptyLabel, fitBox, orQ, max_def,
    List.replicate_succ, decide_eq_true_eq, decide_eq_false_iff_not]

/-- Claim C3, counterexample: the claim reads the page break as a projection
check - break exactly when the cursor position after placing the incoming
card would exceed the page's usable height H.  No such H exists: the source
breaks on `y > pageHeight - 50`, ignoring the incoming card's height.  In
`run1` the seventh card is considered at cursor 245 with advance 35 (cursor
280 after placement, no break), while in `run2` the seventh card is
considered at cursor 250 with advance 30 (the very same projected 280, but a
break).  Constants: A4 page height 297, margin 20, cursor 64 at the top of
the card list. -/
theorem C3_counterexample :
    ¬ ∃ H : ℚ, ∀ ds : List Label, ∀ p ∈ placeCards 297 20 ds 64 0,
        (p.broke = true ↔ p.yBefore + p.advance > H) := by
  rintro ⟨H, hH⟩
  have hm1 : ((false, (280 : ℚ)))
      ∈ (placeCards 297 20 run1 64 0).map (fun p => (p.broke, p.yBefore + p.advance)) := by
    rw [run1_trace]
    simp
  have hm2 : ((true, (280 : ℚ)))
      ∈ (placeCards 297 20 run2 64 0).map (fun p => (p.broke, p.yBefore + p.advance)) := by
    rw [run2_trace]
    simp
  obtain ⟨p1, hp1, he1⟩ := List.mem_map.mp hm1
  obtain ⟨p2, hp2, he2⟩ := List.mem_map.mp hm2
  rw [Prod.mk.injEq] at he1 he2
  have hgt : (280 : ℚ) > H := by
    have h := (hH run2 p2 hp2).mp he2.1
    rwa [he2.2] at h
  have hbr : p1.broke = true := (hH run1 p1 hp1).mpr (by rw [he1.2]; exact hgt)
  rw [he1.1] at hbr
  exact Bool.false_ne_true hbr

/-- Claim C3 (amended): before each card is placed the renderer compares the
current cursor against the fixed threshold `pageHeight - 50` - a check that
does not involve the incoming card's height.  When the cursor is past the
threshold a page break is emitted (page index increments) and the card is
placed at the top margin of the fresh page, otherwise it is placed at the
cursor; every card is placed exactly once, never split and never dropped. -/
theorem C3_theorem (ph m y : ℚ) (pg : Nat) (ds : List Label) :
    (placeCards ph m ds y pg).length = ds.length ∧
    (placeCards ph m ds y pg).map (fun p => (p.broke, p.yPlaced, p.page)) =
      (placeCards ph m ds y pg).map (fun p =>
        (decide (p.yBefore > ph - 50),
         if p.yBefore > ph - 50 then m else p.yBefore,
         if p.yBefore > ph - 50 then p.pageBefore + 1 else p.pageBefore)) := by
  refine ⟨placeCards_length _ _ _ _ _, ?_⟩
  induction ds generalizing y pg with
  | nil => rfl
  | cons lbl rest ih =>
    simp only [placeCards, List.map_cons]
    rw [ih]
    congr 1
    by_cases h : y > ph - 50 <;> simp [h]

theorem placeCards_setQty_geom (ph m : ℚ) (f : Label → Option Int)
    (ds : List Label) (y : ℚ) (pg : Nat) :
    (placeCards ph m (ds.map (fun l => setQty l (f l))) y pg).map Placement.geom
      = (placeCards ph m ds y pg).map Placement.geom := by
  induction ds generalizing y pg with
  | nil => rfl
  | cons lbl rest ih =>
    simp only [List.map_cons, placeCards]
    exact congrArg₂ List.cons rfl (ih _ _)

theorem placeCards_badges (ph m : ℚ) (ds : List Label) (y : ℚ) (pg : Nat) :
    (placeCards ph m ds y pg).map (fun p => p.qtyBadge)
      = ds.map (fun l => qtyOr1 l.quantity) := by
  induction ds generalizing y pg with
  | nil => rfl
  | cons lbl rest ih => simp only [placeCards, List.map_cons, ih]

/-- Claim C4: both visual artifacts render exactly one card per design - the
paginated renderer produces one placement per element of `order.labels`
(first conjunct) and the grid preview one card per design (fourth conjunct);
replacing every design's quantity by anything else changes no placement and
no card outside the quantity badge (second and fifth conjuncts), and the
badge itself shows `quantity || 1` (paginated) resp. `quantity` (grid)
(third and sixth conjuncts). -/
theorem C4_theorem (ph m y : ℚ) (pg : Nat) (ds : List Label)
    (f : Label → Option Int) (gs : List P1Label) (g : P1Label → Int) :
    (placeCards ph m ds y pg).length = ds.length ∧
    (placeCards ph m (ds.map (fun l => setQty l (f l))) y pg).map Placement.geom
      = (placeCards ph m ds y pg).map Placement.geom ∧
    (placeCards ph m ds y pg).map (fun p => p.qtyBadge)
      = ds.map (fun l => qtyOr1 l.quantity) ∧
    (p1Cards gs).length = gs.length ∧
    (p1Cards (gs.map (fun l => p1SetQty l (g l)))).map P1Card.geom
      = (p1Cards gs).map P1Card.geom ∧
    (p1Cards gs).map (fun c => c.badge) = gs.map (fun l => l.quantity) := by
  refine ⟨placeCards_length _ _ _ _ _, placeCards_setQty_geom _ _ _ _ _ _,
    placeCards_badges _ _ _ _ _, by simp [p1Cards], ?_, ?_⟩
  · simp only [p1Cards, List.map_map]
    rfl
  · simp only [p1Cards, List.map_map]
    rfl

/-- Claim C5: for positive design dimensions and a positive bounding box,
`fitBox` fits within the box (`renderWidth ≤ maxWidth`,
`renderHeight ≤ maxHeight`), preserves the aspect ratio exactly
(`renderWidth / renderHeight = designWidth / designHeight`), and is
width-constrained when `ratio > maxWidth / maxHeight`, height-constrained
otherwise. -/
theorem C5_theorem (dw dh maxW maxH : ℚ) (hdw : 0 < dw) (hdh : 0 < dh)
    (hW : 0 < maxW) (hH : 0 < maxH) :
    (fitBox dw dh maxW maxH).1 ≤ maxW ∧
    (fitBox dw dh maxW maxH).2 ≤ maxH ∧
    (fitBox dw dh maxW maxH).1 / (fitBox dw dh maxW maxH).2 = dw / dh ∧
    (dw / dh > maxW / maxH → fitBox dw dh maxW maxH = (maxW, maxW / (dw / dh))) ∧
    (¬ dw / dh > maxW / maxH → fitBox dw dh maxW maxH = (maxH * (dw / dh), maxH)) := by
  have hr : 0 < dw / dh := div_pos hdw hdh
  by_cases h : dw / dh > maxW / maxH
  · have hfit : fitBox dw dh maxW maxH = (maxW, maxW / (dw / dh)) := by
      simp only [fitBox]
      rw [if_pos h]
    rw [hfit]
    refine ⟨le_refl _, ?_, ?_, fun _ => rfl, fun hc => absurd h hc⟩
    · have h1 : maxW < dw / dh * maxH := (div_lt_iff₀ hH).mp h
      exact le_of_lt ((div_lt_iff₀ hr).mpr (by linarith [mul_comm (dw / dh) maxH]))
    · rw [div_div_eq_mul_div, mul_comm, mul_div_assoc,
        div_self (ne_of_gt hW), mul_one]
  · have hfit : fitBox dw dh maxW maxH = (maxH * (dw / dh), maxH) := by
      simp only [fitBox]
      rw [if_neg h]
    rw [hfit]
    refine ⟨?_, le_refl _, ?_, fun hc => absurd hc h, fun _ => rfl⟩
    · have h1 : dw / dh ≤ maxW / maxH := le_of_not_lt h
      have h2 : dw / dh * maxH ≤ maxW := (le_div_iff₀ hH).mp h1
      linarith [mul_comm maxH (dw / dh)]
    · exact mul_div_cancel_left₀ _ (ne_of_gt hH)

/-- Witness for C5 at the concrete bounding box of the source (designWidth 7,
designHeight 2, maxWidth 40, maxHeight 25). -/
theorem C5_witness :
    (0 : ℚ) < 7 ∧ (0 : ℚ) < 2 ∧ (0 : ℚ) < 40 ∧ (0 : ℚ) < 25 ∧
    ((fitBox 7 2 40 25).1 ≤ 40 ∧
     (fitBox 7 2 40 25).2 ≤ 25 ∧
     (fitBox 7 2 40 25).1 / (fitBox 7 2 40 25).2 = 7 / 2 ∧
     ((7 : ℚ) / 2 > 40 / 25 → fitBox 7 2 40 25 = (40, 40 / (7 / 2))) ∧
     (¬ (7 : ℚ) / 2 > 40 / 25 → fitBox 7 2 40 25 = (25 * (7 / 2), 25))) :=
  ⟨by norm_num, by norm_num, by norm_num, by norm_num,
   C5_theorem 7 2 40 25 (by norm_num) (by norm_num) (by norm_num) (by norm_num)⟩

/-- Claim C8, counterexample: the claim states that every missing optional
field is replaced by its documented default (missing width → 7, height → 2),
so the card rendered for a design with all fields missing would be the one of
the explicit-defaults design.  It is not: the card's size caption
interpolates the raw `label.width` / `label.height` without a default, so
the all-missing design's caption carries no dimensions while the defaulted
design's caption carries 7 × 2 (in the real output, the string
`undefined" × undefined"` versus `7" × 2"`). -/
theorem C8_counterexample :
    (placeCards 297 20 [emptyLabel] 64 0).map (fun p => p.dims)
      = [((none : Option ℚ), (none : Option ℚ))] ∧
    (placeCards 297 20 [defaultLabel] 64 0).map (fun p => p.dims)
      = [((some 7 : Option ℚ), (some 2 : Option ℚ))] ∧
    ((none : Option ℚ), (none : Option ℚ))
      ≠ ((some 7 : Option ℚ), (some 2 : Option ℚ)) := by
  refine ⟨rfl, rfl, by decide⟩

/-- Claim C8 (amended): rendering is total - the table builder and the card
renderer are total functions of the optional-field design - and every
missing optional field is replaced by its documented default at every site
where the value is computed with: the design with all fields missing
produces exactly the same table rows (color names Green/White, width 7,
height 2, corners squared, one row for the missing quantity) and exactly the
same card (geometry, fill colors, corner shape, font, badge) as the design
carrying the documented defaults explicitly - with the single exception of
the card's raw size caption, which is the counterexample's divergence and is
excluded from `Placement.style`. -/
theorem C8_theorem (refId notes : String) (B : Nat) (ph m y : ℚ) (pg : Nat) :
    rowsFor refId notes B emptyLabel = rowsFor refId notes B defaultLabel ∧
    (placeCards ph m [emptyLabel] y pg).map Placement.style
      = (placeCards ph m [defaultLabel] y pg).map Placement.style ∧
    (rowsFor refId notes B emptyLabel).length = 1 := by
  refine ⟨rfl, rfl, rfl⟩

/-- Claim C10, counterexample: the claim states that every user-supplied
string interpolated into the markup (refId, contact name, contact email,
notes, line texts) goes through `escapeHtml` first.  In the grid revision of
`part_001` (lines 504-511) `refId`, `contactName` and `contactEmail` are
interpolated raw: with `contactName = "<b>"` the produced header differs
from the claimed escaped form and contains one more raw `<` than it. -/
theorem C10_counterexample :
    p1HeaderInfo ("R") ("<b>") ("") ("Jan 1")
      ≠ p1HeaderInfoClaimed ("R") ("<b>") ("") ("Jan 1") ∧
    countChar '<' (p1HeaderInfo ("R") ("<b>") ("") ("Jan 1"))
      = countChar '<' (p1HeaderInfoClaimed ("R") ("<b>") ("") ("Jan 1")) + 1 := by
  refine ⟨by decide, by decide⟩

/-- Claim C10 (amended): `escapeHtml` replaces `&`, `<`, `>`, `"` with
entities, and its output never contains `<`, `>` or `"`; consequently, at
the interpolation sites that do escape - in `part_000` the preview line
texts, the contact name/email and the notes - the user-supplied content
cannot contribute any markup-significant `<` character: the `<`-count of
each of those fragments is a constant of the template, independent of the
field values.  (The guarantee does not extend to the whole document: fields
such as `font` or the color values are interpolated raw in `part_000`, and
the grid revision of `part_001` interpolates `refId` and the contact fields
raw - the counterexample.) -/
theorem C10_theorem (s name email notes t : String) :
    ('<' ∉ (escapeHtml s).data ∧ '>' ∉ (escapeHtml s).data ∧ '\"' ∉ (escapeHtml s).data) ∧
    countChar '<' (p0PreviewLine t) = 2 ∧
    countChar '<' (p0ContactBlock name email)
      = (if name.isEmpty && email.isEmpty then 0
         else 4 + (if name.isEmpty then 0 else 4) + (if email.isEmpty then 0 else 4)) ∧
    countChar '<' (p0NotesBlock notes) = (if notes.isEmpty then 0 else 6) := by
  refine ⟨escapeHtml_no_special s, ?_, ?_, ?_⟩
  · simp only [p0PreviewLine, countChar_append, countChar_escapeHtml_lt]
    decide
  · by_cases hn : name.isEmpty <;> by_cases he : email.isEmpty <;>
      simp [p0ContactBlock, hn, he, countChar_append, countChar_escapeHtml_lt] <;>
      decide
  · by_cases hn : notes.isEmpty <;>
      simp [p0NotesBlock, hn, countChar_append, countChar_escapeHtml_lt] <;>
      decide

end Nameplate
